import Mathlib

/-!
# Verification of `trufflex.py`

A shallow embedding of the trufflehog-wrapper script `src/trufflex.py`:
credential loading, GitHub/Docker Hub REST pagination, per-target scanner
invocation, finding normalization, and spreadsheet export.

Modelling conventions:
* An HTTP interaction is an oracle: pagination functions receive the list of
  successive responses the server would return, each as a `Page` (status code,
  decoded JSON items, presence of a "next" link/URL).
* `sys.exit(1)` is `Except.error` / the `RunOutcome.exit` constructor; an
  uncaught Python exception is `RunOutcome.raised`.
* Python strings are Lean `String`s; `str.strip` / `str.split` and the path
  extraction of `urllib.parse.urlparse` are re-implemented below over
  character lists so that everything is executable.
* JSON objects from the scanner are records of `Option` fields, `none`
  standing for an absent (or JSON-null where the code treats it alike) key.
-/

/-! ## String helpers (Python `strip`, `split`, `urlparse`) -/

/-- Python `str.strip()` with no argument: drop whitespace on both ends. -/
def trimWs (s : String) : String :=
  String.mk (((s.data.dropWhile Char.isWhitespace).reverse.dropWhile Char.isWhitespace).reverse)

/-- Python `str.strip(c)` for a single-character set: drop `c` on both ends. -/
def pyStripChar (s : String) (c : Char) : String :=
  String.mk (((s.data.dropWhile (· = c)).reverse.dropWhile (· = c)).reverse)

/-- Python `str.rstrip(c)`: drop `c` on the right end only. -/
def pyRstripChar (s : String) (c : Char) : String :=
  String.mk ((s.data.reverse.dropWhile (· = c)).reverse)

/-- If `pat` is a leading segment of `s`, return the remaining characters. -/
def dropPat : List Char → List Char → Option (List Char)
  | [], s => some s
  | _ :: _, [] => none
  | p :: ps, c :: cs => if p = c then dropPat ps cs else none

/-- Split `s` at the first occurrence of `pat`: the characters before it and
the characters after it. `none` when `pat` does not occur. -/
def splitFirst (pat : List Char) : List Char → Option (List Char × List Char)
  | [] => none
  | c :: rest =>
    match dropPat pat (c :: rest) with
    | some tail => some ([], tail)
    | none =>
      match splitFirst pat rest with
      | some (pre, post) => some (c :: pre, post)
      | none => none

/-- The suffix after the last left-to-right non-overlapping occurrence of
`pat`, i.e. Python `s.split(pat)[-1]`; `fuel` bounds the recursion and is
called with the length of the string. -/
def afterLastSplit (pat : List Char) : Nat → List Char → List Char
  | 0, s =>
    match splitFirst pat s with
    | none => s
    | some (_, post) => post
  | Nat.succ n, s =>
    match splitFirst pat s with
    | none => s
    | some (_, post) => afterLastSplit pat n post

/-- Python `"\n".join`. -/
def joinLines : List String → String
  | [] => ""
  | [x] => x
  | x :: y :: rest => x ++ "\n" ++ joinLines (y :: rest)

/-- Code-point comparison of strings, as Python `<=` on `str`. -/
def charsLe : List Char → List Char → Bool
  | [], _ => true
  | _ :: _, [] => false
  | a :: as, b :: bs => if a = b then charsLe as bs else decide (a < b)

def strLe (a b : String) : Bool := charsLe a.data b.data

def sortInsert (x : String) : List String → List String
  | [] => [x]
  | y :: rest => if strLe x y then x :: y :: rest else y :: sortInsert x rest

/-- Python `sorted` on a list of strings (insertion sort, code-point order). -/
def pySorted : List String → List String
  | [] => []
  | x :: rest => sortInsert x (pySorted rest)

/-- `[line.strip() for line in f if line.strip()]`: strip each line, keep the
non-blank ones. -/
def stripLines (lines : List String) : List String :=
  (lines.map trimWs).filter (fun l => l ≠ "")

/-- Python `str.endswith`. -/
def strEndsWith (s suffixStr : String) : Bool :=
  suffixStr.data.isSuffixOf s.data

/-- The `path` component produced by `urllib.parse.urlparse` on the HTTP(S)
URLs this script handles: after `"://"` the authority runs to the first `/`;
the path runs from there up to a `?` or `#`. Without a scheme separator the
whole string (up to `?`/`#`) is the path. -/
def urlPath (url : String) : String :=
  let chars := url.data
  let afterScheme :=
    match splitFirst [':', '/', '/'] chars with
    | some (_, rest) => rest.dropWhile (· ≠ '/')
    | none => chars
  String.mk (afterScheme.takeWhile (fun c => c != '?' && c != '#'))

/-! ## GitHub enumeration (`get_user_repos`, `get_orgs`, `get_profile_repos`) -/

/-- One page of a paginated HTTP listing: status code, items decoded from the
JSON body, and whether the response advertises a next page (GitHub `next`
link header / Docker Hub `next` URL field). -/
structure Page (α : Type) where
  status : Nat
  data : List α
  next : Bool
deriving DecidableEq

def ghUrl (full_name : String) : String := "https://github.com/" ++ full_name

/-- `get_user_repos` (trufflex.py:57-70), over the successive responses of
`GET /user/repos`: accumulate `https://github.com/{full_name}` URLs while
pages succeed; `break` (returning what was gathered) on a non-200 status;
stop after a page with no `next` link. The argument of each `Page.data` is
the repository `full_name`. -/
def get_user_repos : List (Page String) → List String
  | [] => []
  | p :: rest =>
    if p.status ≠ 200 then []
    else p.data.map ghUrl ++ (if p.next then get_user_repos rest else [])

/-- `get_orgs` (trufflex.py:72-83): same loop over `GET /user/orgs`, items
are organization `login` names. -/
def get_orgs : List (Page String) → List String
  | [] => []
  | p :: rest =>
    if p.status ≠ 200 then []
    else p.data ++ (if p.next then get_orgs rest else [])

/-- `username = urlparse(profile_url).path.strip("/")` (trufflex.py:86). -/
def profileUsername (profile_url : String) : String :=
  pyStripChar (urlPath profile_url) '/'

/-- The pagination loop of `get_profile_repos` (trufflex.py:96-105): same
shape as `get_user_repos`, over `GET /users/{username}/repos`. -/
def get_profile_repos_go : List (Page String) → List String
  | [] => []
  | p :: rest =>
    if p.status ≠ 200 then []
    else p.data.map ghUrl ++ (if p.next then get_profile_repos_go rest else [])

/-- `get_profile_repos` (trufflex.py:85-105): an empty username
short-circuits to `[]` before any request; otherwise the pagination loop. -/
def get_profile_repos (profile_url : String) (pages : List (Page String)) : List String :=
  if profileUsername profile_url = "" then []
  else get_profile_repos_go pages

/-- `list_repositories` (trufflex.py:174-187), Docker Hub namespace listing:
unlike the GitHub loops, a non-200 page calls `sys.exit(1)` (`Except.error`),
discarding everything already gathered. -/
def list_repositories : List (Page String) → Except Unit (List String)
  | [] => Except.ok []
  | p :: rest =>
    if p.status ≠ 200 then Except.error ()
    else
      if p.next then (list_repositories rest).map (fun more => p.data ++ more)
      else Except.ok p.data

/-- Specification-side description of the pages a tolerant pagination loop
gathers: the longest leading run of status-200 pages that is not interrupted
by a missing `next` link. -/
def gatheredPages {α : Type} : List (Page α) → List (Page α)
  | [] => []
  | p :: rest =>
    if p.status = 200 then p :: (if p.next then gatheredPages rest else [])
    else []

/-! ## Docker tags and scan-target selection -/

/-- A Docker Hub tag record: its name and the digest of each listed image. -/
structure Tag where
  name : String
  images : List String
deriving DecidableEq

/-- One page of `GET /v2/repositories/{name}/tags`: the `results` array and
whether a `next` URL is present. -/
structure TagPage where
  results : List Tag
  next : Bool
deriving DecidableEq

/-- `skip_tag` (trufflex.py:192-194): deny tags ending in `.sig` or `.enc`. -/
def skip_tag (tag_name : String) : Bool :=
  [".sig", ".enc"].any (fun t => strEndsWith tag_name t)

/-- `get_container_tags` (trufflex.py:201-210): yield each page's results,
advancing while the response carries a `next` URL. -/
def get_container_tags : List TagPage → List Tag
  | [] => []
  | p :: rest => p.results ++ (if p.next then get_container_tags rest else [])

/-- The scan targets the `main` loop (trufflex.py:361-379) derives for one
repository: with `--all-tag`, each non-skipped tag's image digests as
`repo@digest`; otherwise the single target `repo:latest`. -/
def dockerScanTargets (full_repo : String) (tags : List Tag) (allTag : Bool) : List String :=
  if allTag then
    tags.flatMap (fun tag =>
      if skip_tag tag.name then []
      else tag.images.map (fun digest => full_repo ++ "@" ++ digest))
  else [full_repo ++ ":latest"]

/-! ## Scanner invocation (`run_trufflehog`, `scan_with_trufflehog`) -/

/-- Docker finding location metadata,
`finding["SourceMetadata"]["Data"]["Docker"]`; `none` = key absent. -/
structure DockerMeta where
  image : Option String
  tag : Option String
  layer : Option String
  file : Option String
deriving DecidableEq

/-- `finding["ExtraData"]` entries used by the normalizer. -/
structure ExtraData where
  rotation_guide : Option String
  version : Option String
deriving DecidableEq

/-- One parsed JSON finding object from trufflehog output. `none` models an
absent key (for `ExtraData`, also a JSON `null`, which the code's
`finding.get("ExtraData") or {}` treats the same way). -/
structure Finding where
  docker : Option DockerMeta
  extraData : Option ExtraData
  detectorName : Option String
  detectorType : Option String
  detectorDesc : Option String
  raw : Option String
  redacted : Option String
  verified : Option Bool
deriving DecidableEq

def emptyDockerMeta : DockerMeta := ⟨none, none, none, none⟩

def emptyExtraData : ExtraData := ⟨none, none⟩

/-- A finding object with every key absent. -/
def emptyFinding : Finding := ⟨none, none, none, none, none, none, none, none⟩

/-- Outcome of the subprocess call inside `run_trufflehog` (GitHub modes):
normal completion with captured stdout/stderr, a `FileNotFoundError`, or any
other exception. -/
inductive GhProc
  | ok (out err : String)
  | fileNotFound
  | otherExc (msg : String)
deriving DecidableEq

/-- Outcome of the subprocess call inside `scan_with_trufflehog` (Docker
mode): stdout lines (each `some f` when the line parses as a JSON finding,
`none` when blank or unparsable; stderr is discarded), a
`FileNotFoundError`, or any other exception. -/
inductive DockerProc
  | ok (stdoutLines : List (Option Finding))
  | fileNotFound
  | otherExc (msg : String)
deriving DecidableEq

/-- How a Python call ends: a return value, `sys.exit` (process terminates
with a status), or an uncaught exception propagating to the caller. -/
inductive RunOutcome (α : Type)
  | ok (a : α)
  | exit
  | raised (msg : String)
deriving DecidableEq

/-- `run_trufflehog` (trufflex.py:44-51): returns `stdout + stderr`;
`except FileNotFoundError` calls `sys.exit(1)`; any other exception is not
caught and propagates. -/
def run_trufflehog : GhProc → RunOutcome String
  | GhProc.ok out err => RunOutcome.ok (out ++ err)
  | GhProc.fileNotFound => RunOutcome.exit
  | GhProc.otherExc msg => RunOutcome.raised msg

/-- `scan_with_trufflehog` (trufflex.py:212-231): the whole body sits inside
`try: ... except Exception: print(...); return []`, so every exception —
`FileNotFoundError` included — yields `[]`; on success the parsable stdout
lines become findings. -/
def scan_with_trufflehog : DockerProc → RunOutcome (List Finding)
  | DockerProc.ok stdoutLines => RunOutcome.ok (stdoutLines.filterMap id)
  | DockerProc.fileNotFound => RunOutcome.ok []
  | DockerProc.otherExc _ => RunOutcome.ok []

/-- The findings of a Docker scan outcome (`scan_with_trufflehog` never
exits or raises, so only the first arm is ever taken). -/
def outFindings : RunOutcome (List Finding) → List Finding
  | RunOutcome.ok findings => findings
  | _ => []

/-! ## Finding normalization (`parse_docker_finding`) -/

/-- The flat record built by `parse_docker_finding`, fields in source
order. -/
structure DockerRecord where
  image : String
  tag : String
  layer : String
  file : String
  detector_name : String
  detector_type : String
  detector_desc : String
  raw : String
  redacted : String
  verified : Bool
  rotation_guide : String
  version : String
deriving DecidableEq

/-- `parse_docker_finding` (trufflex.py:233-249): every lookup is a `.get`
with a default — `""` or `False`, except `image`, whose default is the
`image` argument the caller passes in. -/
def parse_docker_finding (image : String) (finding : Finding) : DockerRecord :=
  let docker_meta := finding.docker.getD emptyDockerMeta
  let extra := finding.extraData.getD emptyExtraData
  { image := docker_meta.image.getD image
    tag := docker_meta.tag.getD ""
    layer := docker_meta.layer.getD ""
    file := docker_meta.file.getD ""
    detector_name := finding.detectorName.getD ""
    detector_type := finding.detectorType.getD ""
    detector_desc := finding.detectorDesc.getD ""
    raw := finding.raw.getD ""
    redacted := finding.redacted.getD ""
    verified := finding.verified.getD false
    rotation_guide := extra.rotation_guide.getD ""
    version := extra.version.getD "" }

/-- The records `main` (trufflex.py:361-379) accumulates for one repository:
each target is scanned and every finding is normalized with
`parse_docker_finding(full_repo, f)` — the bare repository reference, not
the scanned target. `scanOf` maps a scan target to its subprocess
outcome. -/
def scanRepoRecords (full_repo : String) (tags : List Tag) (allTag : Bool)
    (scanOf : String → DockerProc) : List DockerRecord :=
  (dockerScanTargets full_repo tags allTag).flatMap (fun target =>
    (outFindings (scan_with_trufflehog (scanOf target))).map (parse_docker_finding full_repo))

/-! ## Credential loading (`read_credentials`) -/

/-- The parsed `cred.conf` document: each key optionally present with a list
value (`some []` models a present but empty list, which Python truthiness
treats like an absent key). -/
structure Conf where
  github : Option (List String)
  docker : Option (List String)
deriving DecidableEq

/-- The state of `cred.conf` on disk: absent, present but not valid YAML, or
parsed into a document. -/
inductive CredInput
  | missing
  | unparsable
  | parsed (conf : Conf)
deriving DecidableEq

/-- `line.split(":", 1)[0]`: the characters before the first colon. -/
def beforeColon (s : String) : String :=
  String.mk (s.data.takeWhile (fun c => c != ':'))

/-- `line.split(":", 1)[1]`: the characters after the first colon. -/
def afterColon (s : String) : String :=
  String.mk ((s.data.dropWhile (fun c => c != ':')).drop 1)

/-- `read_credentials` (trufflex.py:20-42): fatal (`Except.error`) when the
file is missing, unparsable, or the first `docker` value has no colon;
otherwise `(github_token, docker_user, docker_pass)`, each optional. -/
def read_credentials : CredInput → Except Unit (Option String × Option String × Option String)
  | CredInput.missing => Except.error ()
  | CredInput.unparsable => Except.error ()
  | CredInput.parsed conf =>
    let github_token : Option String :=
      match conf.github with
      | some (t :: _) => some (trimWs t)
      | _ => none
    match conf.docker with
    | some (l :: _) =>
      let line := trimWs l
      if line.data.contains ':' then
        Except.ok (github_token, some (beforeColon line), some (afterColon line))
      else Except.error ()
    | _ => Except.ok (github_token, none, none)

/-! ## Spreadsheet export -/

/-- What an export call does: write a file with that many rows, or print a
diagnostic and write nothing. -/
inductive ExportOutcome
  | wrote (rows : Nat)
  | noFile (msg : String)
deriving DecidableEq

/-- GitHub location metadata, `data["SourceMetadata"]["Data"]["Github"]`. -/
structure GhMeta where
  repository : Option String
  commit : Option String
  file : Option String
  line : Option String
  link : Option String
  email : Option String
  timestamp : Option String
deriving DecidableEq

/-- One JSON finding object read back from `results.txt`. `verified` keeps
the JSON boolean when present; the code defaults it to `""`, modelled by
`none` in the row. -/
structure GhFinding where
  detectorName : Option String
  detectorDesc : Option String
  verified : Option Bool
  raw : Option String
  github : Option GhMeta
deriving DecidableEq

/-- One line of `results.txt`: blank, unparsable as JSON, or a finding. -/
inductive GhLine
  | blank
  | invalid
  | json (f : GhFinding)
deriving DecidableEq

/-- The row `save_to_excel_github` builds for one finding; `Verified` is the
JSON value when present, else the `""` default (`none` here). -/
structure GhRow where
  DetectorName : String
  DetectorDescription : String
  Verified : Option Bool
  RawSecret : String
  Repository : String
  Commit : String
  File : String
  Line : String
  Link : String
  Email : String
  Timestamp : String
deriving DecidableEq

def ghRowOf (f : GhFinding) : GhRow :=
  let github_data := f.github.getD ⟨none, none, none, none, none, none, none⟩
  { DetectorName := f.detectorName.getD ""
    DetectorDescription := f.detectorDesc.getD ""
    Verified := f.verified
    RawSecret := f.raw.getD ""
    Repository := github_data.repository.getD ""
    Commit := github_data.commit.getD ""
    File := github_data.file.getD ""
    Line := github_data.line.getD ""
    Link := github_data.link.getD ""
    Email := github_data.email.getD ""
    Timestamp := github_data.timestamp.getD "" }

/-- `save_to_excel_github` (trufflex.py:255-285): build a row per parsable
line of the results file; blank and unparsable lines are skipped; with no
rows, print a diagnostic and create no file. -/
def save_to_excel_github (lines : List GhLine) : ExportOutcome :=
  let rows := lines.filterMap (fun l =>
    match l with
    | GhLine.json f => some (ghRowOf f)
    | _ => none)
  if rows.isEmpty then ExportOutcome.noFile "No valid GitHub JSON found, Excel not created."
  else ExportOutcome.wrote rows.length

/-- `save_to_excel_docker` (trufflex.py:287-293): write one row per finding;
with an empty list, print a diagnostic and create no file. -/
def save_to_excel_docker (findings : List DockerRecord) : ExportOutcome :=
  if findings.isEmpty then ExportOutcome.noFile "No Docker findings, Excel not created."
  else ExportOutcome.wrote findings.length

/-! ## Self-scan mode (`scan_my_repos_and_orgs`) -/

def orgCmd (token org : String) : List String :=
  ["trufflehog", "github", "--org=" ++ org, "--token=" ++ token, "--json"]

def repoCmd (token repo : String) : List String :=
  ["trufflehog", "github", "--repo=" ++ repo, "--token=" ++ token, "--json"]

/-- What `scan_my_repos_and_orgs` (trufflex.py:107-130) writes and runs: the
contents of `personal.txt` and `org.txt`, and the scanner command line of
each invocation (organizations first, then repositories). -/
structure SelfScan where
  personalTxt : String
  orgTxt : String
  cmds : List (List String)
deriving DecidableEq

def scan_my_repos_and_orgs (token : String)
    (repoPages orgPages : List (Page String)) : SelfScan :=
  let repos := get_user_repos repoPages
  let orgs := get_orgs orgPages
  { personalTxt :=
      if repos.isEmpty then "No personal repositories found."
      else joinLines (pySorted repos)
    orgTxt :=
      if orgs.isEmpty then "No organizations found."
      else joinLines (pySorted orgs)
    cmds := orgs.map (orgCmd token) ++ repos.map (repoCmd token) }

/-! ## Docker login and profile username -/

/-- `get_docker_token` (trufflex.py:161-167): non-200 login is fatal;
otherwise the bearer token from the response body. -/
def get_docker_token (status : Nat) (token : String) : Except Unit String :=
  if status ≠ 200 then Except.error () else Except.ok token

/-- `get_username_from_url` (trufflex.py:169-172):
`url.rstrip("/").split("/u/")[-1]` when `"/u/"` occurs in the URL, else the
stripped URL itself. -/
def get_username_from_url (url : String) : String :=
  let stripped := (pyRstripChar url '/').data
  match splitFirst ['/', 'u', '/'] url.data with
  | some _ => String.mk (afterLastSplit ['/', 'u', '/'] stripped.length stripped)
  | none => trimWs url

/-! ## The orchestrator (`main`, trufflex.py:299-385) as an event trace -/

/-- Externally visible events of one run, in order. A `net` event stands for
the HTTP request(s) of one enumeration or login call; `scan` is one
scanner-subprocess invocation with its argument vector; `fatal` is
`sys.exit(1)`; `crash` is an uncaught exception unwinding the process. -/
inductive Ev
  | net
  | scan (argv : List String)
  | fatal
  | crash
deriving DecidableEq

/-- The command-line surface of `main` (trufflex.py:300-310). argparse makes
the five mode flags mutually exclusive and one of them required. -/
structure Args where
  git_me : Bool
  git_other : Bool
  git_profile : Bool
  docker_profile : Option String
  docker_repo : Option String
  file : Option String
  output : String
  all_tag : Bool

/-- The environment a run interacts with: the credential file, every HTTP
response, the input files, and each subprocess outcome. -/
structure World where
  cred : CredInput
  userRepoPages : List (Page String)
  userOrgPages : List (Page String)
  fileLines : List String
  profilePages : String → List (Page String)
  ghRun : List String → GhProc
  loginStatus : Nat
  loginToken : String
  profileFileContent : String
  dockerRepoPages : List (Page String)
  dockerFileLines : List String
  tagPages : String → List TagPage
  dockerScan : String → DockerProc

def ghRepoCmdNoTok (repo : String) : List String :=
  ["trufflehog", "github", "--repo=" ++ repo, "--json"]

def dockerCmd (image : String) : List String :=
  ["trufflehog", "docker", "--image", image, "--json", "--only-verified", "--no-update"]

/-- Run a sequence of GitHub-mode scanner invocations: each emits its `scan`
event; a missing binary ends the run with `sys.exit(1)` (trufflex.py:49-51)
and any other exception propagates uncaught. -/
def ghScanEvents (runOf : List String → GhProc) : List (List String) → List Ev
  | [] => []
  | c :: rest =>
    match runOf c with
    | GhProc.ok _ _ => Ev.scan c :: ghScanEvents runOf rest
    | GhProc.fileNotFound => [Ev.scan c, Ev.fatal]
    | GhProc.otherExc _ => [Ev.scan c, Ev.crash]

/-- Append `second` only when `first` did not already end the process. -/
def seqEv (first second : List Ev) : List Ev :=
  if first.contains Ev.fatal || first.contains Ev.crash then first
  else first ++ second

/-- The events of scanning one Docker repository (trufflex.py:361-379):
with `--all-tag`, one tag-listing call then a scan per target; otherwise a
single `repo:latest` scan. `scan_with_trufflehog` never exits, so every
scan continues the run. -/
def dockerRepoEvents (tagsOf : String → List TagPage) (allTag : Bool)
    (full_repo : String) : List Ev :=
  if allTag then
    Ev.net :: (dockerScanTargets full_repo (get_container_tags (tagsOf full_repo)) true).map
      (fun target => Ev.scan (dockerCmd target))
  else
    (dockerScanTargets full_repo [] false).map (fun target => Ev.scan (dockerCmd target))

/-- The Docker half of `main` (trufflex.py:341-382). -/
def dockerSectionEvents (w : World) (a : Args)
    (docker_user docker_pass : Option String) : List Ev :=
  if a.docker_profile.isSome || a.docker_repo.isSome then
    if docker_user.isNone || docker_pass.isNone then [Ev.fatal]
    else
      match get_docker_token w.loginStatus w.loginToken with
      | Except.error _ => [Ev.net, Ev.fatal]
      | Except.ok _ =>
        match a.docker_profile with
        | some _ =>
          let username := get_username_from_url (trimWs w.profileFileContent)
          match list_repositories w.dockerRepoPages with
          | Except.error _ => [Ev.net, Ev.net, Ev.fatal]
          | Except.ok names =>
            let repos := names.map (fun r => username ++ "/" ++ r)
            Ev.net :: Ev.net :: repos.flatMap (dockerRepoEvents w.tagPages a.all_tag)
        | none =>
          let repos := stripLines w.dockerFileLines
          Ev.net :: repos.flatMap (dockerRepoEvents w.tagPages a.all_tag)
  else []

/-- `main` (trufflex.py:299-385) as the ordered trace of its events:
credentials are read first (fatal errors stop the run before any network
request); then the selected GitHub mode, then the Docker section. -/
def mainTrace (w : World) (a : Args) : List Ev :=
  match read_credentials w.cred with
  | Except.error _ => [Ev.fatal]
  | Except.ok (github_token, docker_user, docker_pass) =>
    let ghEvents : List Ev :=
      if a.git_me then
        match github_token with
        | none => [Ev.fatal]
        | some tok =>
          Ev.net :: Ev.net ::
            ghScanEvents w.ghRun
              (scan_my_repos_and_orgs tok w.userRepoPages w.userOrgPages).cmds
      else if a.git_other then
        match a.file with
        | none => [Ev.fatal]
        | some _ => ghScanEvents w.ghRun ((stripLines w.fileLines).map ghRepoCmdNoTok)
      else if a.git_profile then
        match a.file with
        | none => [Ev.fatal]
        | some _ =>
          let profiles := stripLines w.fileLines
          let netEvents := profiles.flatMap (fun p =>
            if profileUsername p = "" then [] else [Ev.net])
          let all_repos := profiles.flatMap (fun p =>
            get_profile_repos p (w.profilePages (profileUsername p)))
          netEvents ++ ghScanEvents w.ghRun (all_repos.map ghRepoCmdNoTok)
      else []
    seqEv ghEvents (dockerSectionEvents w a docker_user docker_pass)

/-- The scanner invocations of a trace. -/
def scanEvents (trace : List Ev) : List Ev :=
  trace.filter (fun e =>
    match e with
    | Ev.scan _ => true
    | _ => false)

/-! ## Scenario environments and specification-side definitions -/

/-- Specification-side reading of "the trailing path segment of its URL":
the suffix of the slash-stripped path after its last `/`. -/
def trailingPathSegment (url : String) : String :=
  let stripped := pyStripChar (urlPath url) '/'
  String.mk (afterLastSplit ['/'] stripped.data.length stripped.data)

/-- Scenario B credential file: a `docker` entry only. -/
def scenarioBConf : Conf := ⟨none, some ["alice:pw"]⟩

/-- Scenario B environment: `repos.txt` lists `alice/app`, whose tags are
`v1` and `v1.sig`, each with one image digest. -/
def scenarioBWorld : World where
  cred := CredInput.parsed scenarioBConf
  userRepoPages := []
  userOrgPages := []
  fileLines := []
  profilePages := fun _ => []
  ghRun := fun _ => GhProc.ok "" ""
  loginStatus := 200
  loginToken := "jwt"
  profileFileContent := ""
  dockerRepoPages := []
  dockerFileLines := ["alice/app"]
  tagPages := fun _ => [⟨[⟨"v1", ["sha256:d1"]⟩, ⟨"v1.sig", ["sha256:d2"]⟩], false⟩]
  dockerScan := fun _ => DockerProc.ok []

/-- Scenario B command line: `--docker-repo repos.txt --all-tag`. -/
def scenarioBArgs : Args where
  git_me := false
  git_other := false
  git_profile := false
  docker_profile := none
  docker_repo := some "repos.txt"
  file := none
  output := "output.xlsx"
  all_tag := true

/-- A credential file whose `docker` value has no colon. -/
def noColonConf : Conf := ⟨some ["tok123"], some ["alicepw"]⟩

/-- An environment whose credential file is `noColonConf`. -/
def noColonWorld : World where
  cred := CredInput.parsed noColonConf
  userRepoPages := []
  userOrgPages := []
  fileLines := []
  profilePages := fun _ => []
  ghRun := fun _ => GhProc.ok "" ""
  loginStatus := 200
  loginToken := "jwt"
  profileFileContent := ""
  dockerRepoPages := []
  dockerFileLines := []
  tagPages := fun _ => []
  dockerScan := fun _ => DockerProc.ok []

/-- A `--git-me` command line. -/
def gitMeArgs : Args where
  git_me := true
  git_other := false
  git_profile := false
  docker_profile := none
  docker_repo := none
  file := none
  output := "output.xlsx"
  all_tag := false

/-! ## Helper lemmas -/

/-- `get_user_repos` returns exactly the items of the gathered page
prefix. -/
theorem get_user_repos_eq_gathered (pages : List (Page String)) :
    get_user_repos pages = (gatheredPages pages).flatMap (fun p => p.data.map ghUrl) := by
  induction pages with
  | nil => rfl
  | cons p rest ih =>
    by_cases h : p.status = 200
    · by_cases hn : p.next <;> simp [get_user_repos, gatheredPages, h, hn, ih]
    · simp [get_user_repos, gatheredPages, h]

/-- `get_orgs` returns exactly the items of the gathered page prefix. -/
theorem get_orgs_eq_gathered (pages : List (Page String)) :
    get_orgs pages = (gatheredPages pages).flatMap (fun p => p.data) := by
  induction pages with
  | nil => rfl
  | cons p rest ih =>
    by_cases h : p.status = 200
    · by_cases hn : p.next <;> simp [get_orgs, gatheredPages, h, hn, ih]
    · simp [get_orgs, gatheredPages, h]

/-- The `get_profile_repos` loop returns exactly the items of the gathered
page prefix. -/
theorem get_profile_repos_go_eq_gathered (pages : List (Page String)) :
    get_profile_repos_go pages = (gatheredPages pages).flatMap (fun p => p.data.map ghUrl) := by
  induction pages with
  | nil => rfl
  | cons p rest ih =>
    by_cases h : p.status = 200
    · by_cases hn : p.next <;> simp [get_profile_repos_go, gatheredPages, h, hn, ih]
    · simp [get_profile_repos_go, gatheredPages, h]

/-- A single-character pattern that occurs nowhere splits nothing. -/
theorem splitFirst_single_eq_none {c : Char} :
    ∀ l : List Char, c ∉ l → splitFirst [c] l = none := by
  intro l h
  induction l with
  | nil => rfl
  | cons a rest ih =>
    have hac : ¬ c = a := fun he => h (he ▸ List.mem_cons_self a rest)
    have hrest : c ∉ rest := fun hm => h (List.mem_cons_of_mem a hm)
    simp [splitFirst, dropPat, hac, ih hrest]

/-- Splitting on a character that does not occur leaves the string whole. -/
theorem afterLastSplit_single_no_occ {c : Char} (n : Nat) (l : List Char) (h : c ∉ l) :
    afterLastSplit [c] n l = l := by
  cases n <;> simp [afterLastSplit, splitFirst_single_eq_none l h]

/-- Appending a non-empty string changes a string. -/
theorem append_ne_of_ne_empty (s t : String) (ht : t.length ≠ 0) : s ++ t ≠ s := by
  intro h
  have hlen := congrArg String.length h
  rw [String.length_append] at hlen
  omega

/-! ## Claim theorems -/

/-- C1, counterexample: the Docker Hub repository listing does not return
the pages gathered before a non-200 response; with a successful first page
carrying `a` and the second page failing, the claimed behavior would be
`Except.ok ["a"]`, but `list_repositories` discards the partial result and
terminates the process (`Except.error`, modelling `sys.exit(1)` at
trufflex.py:182). -/
theorem c1_counterexample :
    list_repositories [(⟨200, ["a"], true⟩ : Page String), ⟨404, [], false⟩] = Except.error ()
  ∧ Except.error () ≠ Except.ok (["a"] : List String) :=
  ⟨rfl, by simp⟩

/-- C1, amended: the three GitHub listing calls return the concatenation of
the pages gathered before the first non-200 response (and never terminate
the process — they are total functions into `List String`); the Docker Hub
repository listing instead exits the process on any non-200 page its loop
reaches — also after successful pages, whose gathered partial result is
discarded. -/
theorem c1_pagination_error_policy :
    (∀ pages, get_user_repos pages = (gatheredPages pages).flatMap (fun p => p.data.map ghUrl))
  ∧ (∀ pages, get_orgs pages = (gatheredPages pages).flatMap (fun p => p.data))
  ∧ (∀ url pages, profileUsername url ≠ "" →
      get_profile_repos url pages = (gatheredPages pages).flatMap (fun p => p.data.map ghUrl))
  ∧ (∀ (pre : List (Page String)) (p : Page String) rest,
      (∀ q ∈ pre, q.status = 200 ∧ q.next = true) → p.status ≠ 200 →
      list_repositories (pre ++ p :: rest) = Except.error ()) := by
  refine ⟨get_user_repos_eq_gathered, get_orgs_eq_gathered, ?_, ?_⟩
  · intro url pages h
    rw [get_profile_repos, if_neg h]
    exact get_profile_repos_go_eq_gathered pages
  · intro pre p rest hpre hp
    induction pre with
    | nil => simp [list_repositories, hp]
    | cons q qs ih =>
      have hq := hpre q (List.mem_cons_self q qs)
      have hqs : ∀ x ∈ qs, x.status = 200 ∧ x.next = true :=
        fun x hx => hpre x (List.mem_cons_of_mem q hx)
      simp [list_repositories, hq.1, hq.2, ih hqs, Except.map]

/-- Witness for C1 at concrete inputs: a profile listing whose second page
fails returns the first page's repositories, and a Docker page failing
after a successful page exits. -/
theorem c1_pagination_error_policy_witness :
    get_profile_repos "https://github.com/alice" [⟨200, ["alice/r"], true⟩, ⟨403, [], false⟩]
      = ["https://github.com/alice/r"]
  ∧ list_repositories [(⟨200, ["a"], true⟩ : Page String), ⟨404, [], false⟩]
      = Except.error () := by
  constructor
  · rw [c1_pagination_error_policy.2.2.1 "https://github.com/alice"
      [⟨200, ["alice/r"], true⟩, ⟨403, [], false⟩] (by decide)]
    decide
  · exact c1_pagination_error_policy.2.2.2 [⟨200, ["a"], true⟩] ⟨404, [], false⟩ []
      (by decide) (by decide)

/-- C2, counterexample: in Docker mode a missing trufflehog binary
(`FileNotFoundError`) is swallowed by the blanket `except Exception`
(trufflex.py:229-231) and yields zero findings — the run continues; the
process does not terminate as the claim requires. -/
theorem c2_counterexample :
    scan_with_trufflehog DockerProc.fileNotFound = RunOutcome.ok []
  ∧ RunOutcome.ok ([] : List Finding) ≠ RunOutcome.exit :=
  ⟨rfl, by simp⟩

/-- C2, amended: in GitHub mode (`run_trufflehog`) a missing binary is fatal
(`sys.exit(1)`) and any other exception propagates uncaught, aborting the
run; in Docker mode (`scan_with_trufflehog`) every exception — the missing
binary included — is caught and treated as zero findings, and scanning
continues; successful runs return their captured output. -/
theorem c2_scan_exception_policy :
    run_trufflehog GhProc.fileNotFound = RunOutcome.exit
  ∧ (∀ msg, run_trufflehog (GhProc.otherExc msg) = RunOutcome.raised msg)
  ∧ (∀ out err, run_trufflehog (GhProc.ok out err) = RunOutcome.ok (out ++ err))
  ∧ scan_with_trufflehog DockerProc.fileNotFound = RunOutcome.ok []
  ∧ (∀ msg, scan_with_trufflehog (DockerProc.otherExc msg) = RunOutcome.ok [])
  ∧ (∀ stdoutLines, scan_with_trufflehog (DockerProc.ok stdoutLines)
      = RunOutcome.ok (stdoutLines.filterMap id)) :=
  ⟨rfl, fun _ => rfl, fun _ _ => rfl, rfl, fun _ => rfl, fun _ => rfl⟩

/-- C3: every `--all-tag` scan target comes from a tag that the deny list
does not skip (so a `.sig`/`.enc` tag's images never become targets), and
without `--all-tag` the single target is the `latest` tag, which is never
skipped. -/
theorem c3_skipped_tags_never_scanned :
    (∀ repo tags x, x ∈ dockerScanTargets repo tags true →
        ∃ tag, tag ∈ tags ∧ skip_tag tag.name = false ∧
          ∃ d, d ∈ tag.images ∧ x = repo ++ "@" ++ d)
  ∧ (∀ repo tags, dockerScanTargets repo tags false = [repo ++ ":latest"])
  ∧ skip_tag "latest" = false := by
  refine ⟨?_, fun repo tags => rfl, by decide⟩
  intro repo tags x hx
  simp only [dockerScanTargets, if_true] at hx
  rw [List.mem_flatMap] at hx
  obtain ⟨tag, htag, hx⟩ := hx
  by_cases hs : skip_tag tag.name = true
  · simp [hs] at hx
  · rw [if_neg hs, List.mem_map] at hx
    obtain ⟨d, hd, hxd⟩ := hx
    exact ⟨tag, htag, Bool.not_eq_true _ ▸ Bool.of_not_eq_true hs, d, hd, hxd.symm⟩

/-- Witness for C3: the sole target of scenario B's repository traces back
to the non-skipped tag `v1`. -/
theorem c3_skipped_tags_never_scanned_witness :
    ∃ tag, tag ∈ [(⟨"v1", ["sha256:d1"]⟩ : Tag), ⟨"v1.sig", ["sha256:d2"]⟩] ∧
      skip_tag tag.name = false ∧
      ∃ d, d ∈ tag.images ∧ "alice/app@sha256:d1" = "alice/app" ++ "@" ++ d :=
  c3_skipped_tags_never_scanned.1 "alice/app"
    [⟨"v1", ["sha256:d1"]⟩, ⟨"v1.sig", ["sha256:d2"]⟩]
    "alice/app@sha256:d1" (by decide)

/-- C4, counterexample: for a profile URL with a two-segment path the
username the code derives (`urlparse(url).path.strip("/")`) is the whole
path `foo/bar`, not the trailing segment `bar`. -/
theorem c4_counterexample :
    profileUsername "https://github.com/foo/bar" = "foo/bar"
  ∧ trailingPathSegment "https://github.com/foo/bar" = "bar"
  ∧ ("foo/bar" : String) ≠ "bar" :=
  ⟨by decide, by decide, by decide⟩

/-- C4, amended: the username is the URL's entire path with leading and
trailing slashes stripped; it coincides with the trailing path segment
exactly when that stripped path has a single segment (no internal slash). -/
theorem c4_username_is_stripped_path (url : String)
    (h : '/' ∉ (profileUsername url).data) :
    profileUsername url = trailingPathSegment url := by
  have h2 : '/' ∉ (pyStripChar (urlPath url) '/').data := h
  show profileUsername url = String.mk (afterLastSplit ['/']
    (pyStripChar (urlPath url) '/').data.length (pyStripChar (urlPath url) '/').data)
  rw [afterLastSplit_single_no_occ _ _ h2]
  rfl

/-- Witness for C4 on a single-segment profile URL. -/
theorem c4_username_is_stripped_path_witness :
    profileUsername "https://github.com/alice" = trailingPathSegment "https://github.com/alice" :=
  c4_username_is_stripped_path "https://github.com/alice" (by decide)

/-- C5: with `--all-tag` every image digest of every non-skipped tag becomes
the target `repo@digest`; without it the single target is `repo:latest`; and
in end-to-end scenario B (repository `alice/app` with tags `v1`, `v1.sig`,
one digest each, `--all-tag` set) the run performs exactly one scanner
invocation, on `v1`'s digest. -/
theorem c5_image_selection :
    (∀ repo tags tag d, tag ∈ tags → skip_tag tag.name = false → d ∈ tag.images →
        (repo ++ "@" ++ d) ∈ dockerScanTargets repo tags true)
  ∧ (∀ repo tags, dockerScanTargets repo tags false = [repo ++ ":latest"])
  ∧ dockerScanTargets "alice/app" [⟨"v1", ["sha256:d1"]⟩, ⟨"v1.sig", ["sha256:d2"]⟩] true
      = ["alice/app@sha256:d1"]
  ∧ scanEvents (mainTrace scenarioBWorld scenarioBArgs)
      = [Ev.scan (dockerCmd "alice/app@sha256:d1")] := by
  refine ⟨?_, fun repo tags => rfl, by decide, by decide⟩
  intro repo tags tag d htag hskip hd
  simp only [dockerScanTargets, if_true]
  rw [List.mem_flatMap]
  refine ⟨tag, htag, ?_⟩
  rw [if_neg (by simp [hskip]), List.mem_map]
  exact ⟨d, hd, rfl⟩

/-- Witness for C5: `v1`'s digest is a target of scenario B's repository. -/
theorem c5_image_selection_witness :
    ("alice/app" ++ "@" ++ "sha256:d1") ∈
      dockerScanTargets "alice/app" [⟨"v1", ["sha256:d1"]⟩, ⟨"v1.sig", ["sha256:d2"]⟩] true :=
  c5_image_selection.1 "alice/app" [⟨"v1", ["sha256:d1"]⟩, ⟨"v1.sig", ["sha256:d2"]⟩]
    ⟨"v1", ["sha256:d1"]⟩ "sha256:d1" (by decide) (by decide) (by decide)

/-- C6: a credential file whose `docker` entry's first value has no colon
makes `read_credentials` fatal, and since `main` reads credentials before
anything else, the whole run is the single fatal event — no network request
is ever issued. -/
theorem c6_docker_cred_no_colon_fatal (w : World) (a : Args) (conf : Conf)
    (l : String) (rest : List String)
    (hconf : w.cred = CredInput.parsed conf)
    (hdocker : conf.docker = some (l :: rest))
    (hnocolon : ':' ∉ (trimWs l).data) :
    read_credentials w.cred = Except.error ()
  ∧ mainTrace w a = [Ev.fatal]
  ∧ Ev.net ∉ mainTrace w a := by
  have herr : read_credentials (CredInput.parsed conf) = Except.error () := by
    simp [read_credentials, hdocker, hnocolon]
  have htrace : mainTrace w a = [Ev.fatal] := by
    unfold mainTrace
    rw [hconf, herr]
  refine ⟨hconf ▸ herr, htrace, ?_⟩
  rw [htrace]
  decide

/-- Witness for C6: the colon-less value `alicepw` aborts a `--git-me` run
before any network event. -/
theorem c6_docker_cred_no_colon_fatal_witness :
    read_credentials noColonWorld.cred = Except.error ()
  ∧ mainTrace noColonWorld gitMeArgs = [Ev.fatal]
  ∧ Ev.net ∉ mainTrace noColonWorld gitMeArgs :=
  c6_docker_cred_no_colon_fatal noColonWorld gitMeArgs noColonConf "alicepw" []
    rfl rfl (by decide)

/-- C7, counterexample: on a finding with every key absent the normalized
`image` field is the caller's image argument, not an empty string or
`false` — so not "every other absent field" defaults to `""`/`false`. -/
theorem c7_counterexample :
    (parse_docker_finding "alice/app" emptyFinding).image = "alice/app"
  ∧ ("alice/app" : String) ≠ "" :=
  ⟨rfl, by decide⟩

/-- C7, amended: a Docker finding without an `ExtraData` object normalizes
with empty `rotation_guide` and `version` and no missing-field error
(`parse_docker_finding` is total), and every other absent field defaults to
an empty string or `false` — except `image`, which defaults to the
caller-supplied image reference. -/
theorem c7_extra_data_defaults (image : String) (f : Finding)
    (h : f.extraData = none) :
    (parse_docker_finding image f).rotation_guide = ""
  ∧ (parse_docker_finding image f).version = ""
  ∧ (∀ img, parse_docker_finding img emptyFinding =
      ⟨img, "", "", "", "", "", "", "", "", false, "", ""⟩) := by
  refine ⟨?_, ?_, fun img => rfl⟩ <;>
    simp [parse_docker_finding, h, emptyExtraData]

/-- Witness for C7 on the finding with every key absent. -/
theorem c7_extra_data_defaults_witness :
    (parse_docker_finding "img" emptyFinding).rotation_guide = ""
  ∧ (parse_docker_finding "img" emptyFinding).version = ""
  ∧ (∀ img, parse_docker_finding img emptyFinding =
      ⟨img, "", "", "", "", "", "", "", "", false, "", ""⟩) :=
  c7_extra_data_defaults "img" emptyFinding rfl

/-- C8: exporting an empty finding list writes no file and raises no error —
both exporters return the diagnostic outcome — while a non-empty Docker
finding list does write a file. -/
theorem c8_empty_export_no_file :
    save_to_excel_docker [] = ExportOutcome.noFile "No Docker findings, Excel not created."
  ∧ save_to_excel_github [] = ExportOutcome.noFile "No valid GitHub JSON found, Excel not created."
  ∧ (∀ findings, findings ≠ [] →
      save_to_excel_docker findings = ExportOutcome.wrote findings.length) := by
  refine ⟨rfl, rfl, ?_⟩
  intro findings h
  rw [save_to_excel_docker, if_neg (by simpa using h)]

/-- Witness for C8: a one-record list is written out. -/
theorem c8_empty_export_no_file_witness :
    save_to_excel_docker [parse_docker_finding "img" emptyFinding]
      = ExportOutcome.wrote 1 :=
  c8_empty_export_no_file.2.2 [parse_docker_finding "img" emptyFinding] (by decide)

/-- C9: in self-scan mode with 2 owned repositories and 1 organization,
`personal.txt` is the two repository URLs in sorted order, `org.txt` is the
organization name, and the scanner is invoked exactly 3 times — the
organization first, then each repository. -/
theorem c9_self_scan_scenario (token r1 r2 o1 : String)
    (repoPages orgPages : List (Page String))
    (hrepos : get_user_repos repoPages = [r1, r2])
    (horgs : get_orgs orgPages = [o1]) :
    (scan_my_repos_and_orgs token repoPages orgPages).personalTxt
        = joinLines (pySorted [r1, r2])
  ∧ (scan_my_repos_and_orgs token repoPages orgPages).orgTxt = o1
  ∧ (scan_my_repos_and_orgs token repoPages orgPages).cmds
        = [orgCmd token o1, repoCmd token r1, repoCmd token r2]
  ∧ (scan_my_repos_and_orgs token repoPages orgPages).cmds.length = 3 := by
  unfold scan_my_repos_and_orgs
  rw [hrepos, horgs]
  exact ⟨rfl, rfl, rfl, rfl⟩

/-- Witness for C9 on a concrete 2-repository, 1-organization account. -/
theorem c9_self_scan_scenario_witness :
    (scan_my_repos_and_orgs "tok123" [⟨200, ["u/b", "u/a"], false⟩]
        [⟨200, ["orgx"], false⟩]).personalTxt
      = joinLines (pySorted ["https://github.com/u/b", "https://github.com/u/a"])
  ∧ (scan_my_repos_and_orgs "tok123" [⟨200, ["u/b", "u/a"], false⟩]
        [⟨200, ["orgx"], false⟩]).orgTxt = "orgx"
  ∧ (scan_my_repos_and_orgs "tok123" [⟨200, ["u/b", "u/a"], false⟩]
        [⟨200, ["orgx"], false⟩]).cmds
      = [orgCmd "tok123" "orgx", repoCmd "tok123" "https://github.com/u/b",
         repoCmd "tok123" "https://github.com/u/a"]
  ∧ (scan_my_repos_and_orgs "tok123" [⟨200, ["u/b", "u/a"], false⟩]
        [⟨200, ["orgx"], false⟩]).cmds.length = 3 :=
  c9_self_scan_scenario "tok123" "https://github.com/u/b" "https://github.com/u/a" "orgx"
    [⟨200, ["u/b", "u/a"], false⟩] [⟨200, ["orgx"], false⟩] (by decide) (by decide)

/-- C10: when a finding's Docker metadata lacks an `image` field (or the
whole metadata chain is absent) the normalized record's `image` is the bare
repository reference the caller passed; every record of the scan loop is
normalized with that bare reference, and every actually-scanned target
(`repo@digest` or `repo:latest`) differs from it. -/
theorem c10_missing_image_meta_uses_bare_repo :
    (∀ image f, f.docker = none → (parse_docker_finding image f).image = image)
  ∧ (∀ image f dm, f.docker = some dm → dm.image = none →
      (parse_docker_finding image f).image = image)
  ∧ (∀ full_repo tags allTag scanOf r, r ∈ scanRepoRecords full_repo tags allTag scanOf →
      ∃ target f, target ∈ dockerScanTargets full_repo tags allTag ∧
        f ∈ outFindings (scan_with_trufflehog (scanOf target)) ∧
        r = parse_docker_finding full_repo f)
  ∧ (∀ full_repo tags allTag target, target ∈ dockerScanTargets full_repo tags allTag →
      target ≠ full_repo) := by
  refine ⟨?_, ?_, ?_, ?_⟩
  · intro image f h
    simp [parse_docker_finding, h, emptyDockerMeta]
  · intro image f dm h hdm
    simp [parse_docker_finding, h, hdm]
  · intro full_repo tags allTag scanOf r hr
    rw [scanRepoRecords, List.mem_flatMap] at hr
    obtain ⟨target, htarget, hr⟩ := hr
    rw [List.mem_map] at hr
    obtain ⟨f, hf, hrf⟩ := hr
    exact ⟨target, f, htarget, hf, hrf.symm⟩
  · intro full_repo tags allTag target htarget
    cases allTag with
    | true =>
      rw [dockerScanTargets, if_pos rfl, List.mem_flatMap] at htarget
      obtain ⟨tag, _, htarget⟩ := htarget
      by_cases hs : skip_tag tag.name = true
      · simp [hs] at htarget
      · rw [if_neg hs, List.mem_map] at htarget
        obtain ⟨d, _, hd⟩ := htarget
        rw [← hd, String.append_assoc]
        refine append_ne_of_ne_empty full_repo ("@" ++ d) ?_
        rw [String.length_append]
        have h1 : ("@" : String).length = 1 := rfl
        omega
    | false =>
      rw [dockerScanTargets] at htarget
      simp only [Bool.false_eq_true, if_false, List.mem_singleton] at htarget
      rw [htarget]
      exact append_ne_of_ne_empty full_repo ":latest" (by decide)

/-- Witness for C10: a metadata-less finding normalizes to the bare
repository reference, which is not the digest-qualified scanned target. -/
theorem c10_missing_image_meta_uses_bare_repo_witness :
    (parse_docker_finding "alice/app" emptyFinding).image = "alice/app"
  ∧ "alice/app" ++ "@" ++ "sha256:d1" ≠ "alice/app" :=
  ⟨c10_missing_image_meta_uses_bare_repo.1 "alice/app" emptyFinding rfl,
   c10_missing_image_meta_uses_bare_repo.2.2.2 "alice/app" [⟨"v1", ["sha256:d1"]⟩] true
     ("alice/app" ++ "@" ++ "sha256:d1") (by decide)⟩
